import Mathlib

/-!
# Verification of the `wlhello` Wayland client (`src/main.cc`, `src/window.cc`)

Shallow embedding of the `context` class of `src/main.cc` (and, for the seat
capability handler, the equivalent `Window::on_seat_capabilities` of
`src/window.cc`).  Native handles are modelled as `Option` values (a field is
`some _` exactly when the corresponding member pointer is non-null), protocol
callbacks become pure state-transition functions returning the new state
together with the list of external calls they issue, and the `main` event loop
becomes a fuel-indexed recursion over per-iteration event queues.
-/

set_option autoImplicit false

namespace Wlhello

/-- Compile-time constants `k_width` / `k_height` of `main.cc` (lines 23-24). -/
def k_width : Int := 800

/-- Default window height (`main.cc` line 24). -/
def k_height : Int := 600

/-- A compiled xkb keymap.  The library object is opaque; it is determined by
the text blob it was compiled from (`xkb_keymap_new_from_string`). -/
structure Keymap where
  blob : String
deriving DecidableEq

/-- `xkb_keymap_new_from_string`: compiling a keymap text blob. -/
def xkb_keymap_new_from_string (blob : String) : Keymap := ⟨blob⟩

/-- Derived xkb state: the keymap it was created from plus the modifier and
group masks updated by `xkb_state_update_mask`. -/
structure XkbState where
  keymap : Keymap
  mods_depressed : Nat
  mods_latched : Nat
  mods_locked : Nat
  group : Nat
deriving DecidableEq

/-- `xkb_state_new`: fresh derived state for a keymap, all masks clear. -/
def xkb_state_new (km : Keymap) : XkbState := ⟨km, 0, 0, 0, 0⟩

/-- `xkb_state_update_mask` as called in `cb_kb_modifiers` (layout-base and
layout-latched arguments are passed as 0 by the code). -/
def xkb_state_update_mask (s : XkbState) (d l lk g : Nat) : XkbState :=
  { s with mods_depressed := d, mods_latched := l, mods_locked := lk, group := g }

/-- The external keymap-resolution semantics of libxkbcommon: given a compiled
keymap, an xkb keycode and the current masks, produce a keysym.  The library is
out of scope, so it is a parameter of the model. -/
structure Xkb where
  sym : Keymap → Nat → Nat → Nat → Nat → Nat → Nat

/-- `xkb_state_key_get_one_sym`: resolve a keycode through the compiled keymap
and the current derived state. -/
def xkb_state_key_get_one_sym (xkb : Xkb) (s : XkbState) (code : Nat) : Nat :=
  xkb.sym s.keymap code s.mods_depressed s.mods_latched s.mods_locked s.group

/-- External calls issued by the callbacks. -/
inductive Effect where
  | pong (serial : Nat)
  | ack_configure (serial : Nat)
  | seat_get_keyboard
  | keyboard_add_listener
  | keyboard_release
  | egl_window_resize (w h : Int)
  | surface_commit
  | key_observation (action : String) (sym : Nat)
  | mmap
  | compile_keymap (blob : String)
  | munmap
  | close_fd
  | state_new
  | keymap_unref (old : Option Keymap)
  | state_unref (old : Option XkbState)
deriving DecidableEq

/-- One `wl_registry.global` advertisement: numeric name (`id`), interface
string and version. -/
structure GlobalAdd where
  id : Nat
  interface : String
  version : Nat
deriving DecidableEq

/-- Construction-failure taxonomy (spec §7) carrying the exact
`std::runtime_error` message thrown by `main.cc`. -/
inductive CErr where
  | connectionError (what : String)
  | protocolError (what : String)
  | missingCapabilityError (what : String)
  | surfaceError (what : String)
  | graphicsInitError (what : String)
deriving DecidableEq

/-- The native resources a `context` can own. -/
inductive Resource where
  | display
  | registry
  | compositor
  | xdg_base
  | seat
  | xdg_dm
  | surface
  | xdg_surface
  | toplevel
  | decor
  | region
  | egl_window
  | xkb_context
  | egl_init
  | egl_surface
  | egl_context
  | keyboard
  | xkb_keymap
  | xkb_state
deriving DecidableEq

/-- The member state of `class context` (`main.cc` lines 26-48).  `Option` is
pointer nullability; defaults are the member initializers. -/
structure Ctx where
  wl_display : Option Unit := none
  registry : Option Unit := none
  compositor : Option Nat := none
  xdg_base : Option Nat := none
  seat : Option Nat := none
  xdg_dm : Option Nat := none
  wl_surface : Option Unit := none
  xdg_surface : Option Unit := none
  xdg_toplevel : Option Unit := none
  xdg_toplevel_decor : Option Unit := none
  wl_keyboard : Option Unit := none
  wants_close : Bool := false
  width : Int := k_width
  height : Int := k_height
  region : Option Unit := none
  egl_window : Option Unit := none
  egl_display : Option Unit := none
  egl_inited : Bool := false
  egl_surface : Option Unit := none
  egl_context : Option Unit := none
  xkb_state : Option XkbState := none
  xkb_context : Option Unit := none
  xkb_keymap : Option Keymap := none
deriving DecidableEq

/-- A freshly member-initialized `context` before the constructor body runs. -/
def initialCtx : Ctx := {}

/-- Interface name of `wl_compositor_interface`. -/
def wl_compositor_name : String := "wl_compositor"

/-- Interface name of `xdg_wm_base_interface`. -/
def xdg_wm_base_name : String := "xdg_wm_base"

/-- Interface name of `wl_seat_interface`. -/
def wl_seat_name : String := "wl_seat"

/-- Interface name of `zxdg_decoration_manager_v1_interface`. -/
def zxdg_decoration_manager_v1_name : String := "zxdg_decoration_manager_v1"

/-- Whether an interface name occurs among the advertised globals. -/
def hasGlobal (gs : List GlobalAdd) (n : String) : Bool :=
  gs.any fun g => g.interface = n

/-- `context::cb_registry_global_add` (`main.cc` lines 242-265): match the
advertised interface by name and bind the corresponding member. -/
def cb_registry_global_add (st : Ctx) (g : GlobalAdd) : Ctx :=
  if g.interface = wl_compositor_name then
    { st with compositor := some g.id }
  else if g.interface = xdg_wm_base_name then
    { st with xdg_base := some g.id }
  else if g.interface = wl_seat_name then
    { st with seat := some g.id }
  else if g.interface = zxdg_decoration_manager_v1_name then
    { st with xdg_dm := some g.id }
  else st

/-- The resource acquired by one registry advertisement (the `wl_registry_bind`
call performed in the matching branch, if any). -/
def registryAcquired (g : GlobalAdd) : List Resource :=
  if g.interface = wl_compositor_name then [Resource.compositor]
  else if g.interface = xdg_wm_base_name then [Resource.xdg_base]
  else if g.interface = wl_seat_name then [Resource.seat]
  else if g.interface = zxdg_decoration_manager_v1_name then [Resource.xdg_dm]
  else []

/-- The registry dispatch/roundtrip of the constructor (`main.cc` lines
127-128): deliver every advertisement to `cb_registry_global_add`, collecting
the resources bound on the way. -/
def registryPhase (gs : List GlobalAdd) (st : Ctx) : Ctx × List Resource :=
  match gs with
  | [] => (st, [])
  | g :: rest =>
    let r := registryPhase rest (cb_registry_global_add st g)
    (r.1, registryAcquired g ++ r.2)

/-- `WL_SEAT_CAPABILITY_KEYBOARD` bit of the seat capability bitmask. -/
def WL_SEAT_CAPABILITY_KEYBOARD : Nat := 2

/-- `context::cb_seat_capabilities` (`main.cc` lines 272-287). -/
def cb_seat_capabilities (st : Ctx) (caps : Nat) : Ctx × List Effect :=
  let has_keyboard : Bool := decide (caps &&& WL_SEAT_CAPABILITY_KEYBOARD ≠ 0)
  if has_keyboard && st.wl_keyboard.isNone then
    ({ st with wl_keyboard := some () },
     [Effect.seat_get_keyboard, Effect.keyboard_add_listener])
  else if !has_keyboard && !st.wl_keyboard.isNone then
    ({ st with wl_keyboard := none }, [Effect.keyboard_release])
  else (st, [])

/-- `Window::on_seat_capabilities` (`window.cc` lines 198-213), acting on the
`m_keyboard` member alone; same branch structure as the `context` version. -/
def on_seat_capabilities (kb : Option Unit) (caps : Nat) :
    Option Unit × List Effect :=
  let had_keyboard : Bool := kb.isSome
  let has_keyboard : Bool := decide (caps &&& WL_SEAT_CAPABILITY_KEYBOARD ≠ 0)
  if has_keyboard && !had_keyboard then
    (some (), [Effect.seat_get_keyboard, Effect.keyboard_add_listener])
  else if !has_keyboard && had_keyboard then
    (none, [Effect.keyboard_release])
  else (kb, [])

/-- `context::resize` (`main.cc` lines 375-387): early-return when the proposed
size equals the stored size; otherwise store the new size, resize the native
EGL window if present, and commit the surface. -/
def resize (st : Ctx) (w h : Int) : Ctx × List Effect :=
  if w = st.width ∧ h = st.height then (st, [])
  else
    ({ st with width := w, height := h },
     (if st.egl_window.isSome then [Effect.egl_window_resize w h] else [])
       ++ [Effect.surface_commit])

/-- `context::cb_xdg_toplevel_configure` (`main.cc` lines 296-301): forwards
the proposed dimensions to `resize`. -/
def cb_xdg_toplevel_configure (st : Ctx) (w h : Int) : Ctx × List Effect :=
  resize st w h

/-- `context::cb_xdg_toplevel_close` (`main.cc` lines 303-306). -/
def cb_xdg_toplevel_close (st : Ctx) : Ctx × List Effect :=
  ({ st with wants_close := true }, [])

/-- `context::cb_xdg_base_ping` (`main.cc` lines 267-270). -/
def cb_xdg_base_ping (st : Ctx) (serial : Nat) : Ctx × List Effect :=
  (st, [Effect.pong serial])

/-- `context::cb_xdg_surface_configure` (`main.cc` lines 291-294). -/
def cb_xdg_surface_configure (st : Ctx) (serial : Nat) : Ctx × List Effect :=
  (st, [Effect.ack_configure serial])

/-- `context::cb_kb_map` (`main.cc` lines 308-327): map the blob, compile a new
keymap, unmap and close, build fresh derived state from the new keymap, unref
the previous keymap and state, store the new pair. -/
def cb_kb_map (st : Ctx) (blob : String) : Ctx × List Effect :=
  let km := xkb_keymap_new_from_string blob
  let s := xkb_state_new km
  ({ st with xkb_keymap := some km, xkb_state := some s },
   [Effect.mmap, Effect.compile_keymap blob, Effect.munmap, Effect.close_fd,
    Effect.state_new, Effect.keymap_unref st.xkb_keymap,
    Effect.state_unref st.xkb_state])

/-- `context::cb_kb_enter` (`main.cc` lines 329-344): for each scancode in the
batch, resolve `key + 8` through the current derived state and print it as
pressed.  A null `m_xkb_state` would be passed to the library (undefined);
modelled as producing no observation. -/
def cb_kb_enter (xkb : Xkb) (st : Ctx) (keys : List Nat) : Ctx × List Effect :=
  match st.xkb_state with
  | none => (st, [])
  | some s =>
    (st, keys.map fun k =>
      Effect.key_observation "pressed  " (xkb_state_key_get_one_sym xkb s (k + 8)))

/-- `WL_KEYBOARD_KEY_STATE_PRESSED`. -/
def WL_KEYBOARD_KEY_STATE_PRESSED : Nat := 1

/-- `context::cb_kb_key` (`main.cc` lines 348-361): resolve `key + 8` through
the current derived state and print it with the press/release action. -/
def cb_kb_key (xkb : Xkb) (st : Ctx) (key kstate : Nat) : Ctx × List Effect :=
  match st.xkb_state with
  | none => (st, [])
  | some s =>
    let sym := xkb_state_key_get_one_sym xkb s (key + 8)
    let action := if kstate = WL_KEYBOARD_KEY_STATE_PRESSED
      then "pressed  " else "released "
    (st, [Effect.key_observation action sym])

/-- `context::cb_kb_modifiers` (`main.cc` lines 363-370).  A null
`m_xkb_state` would be passed to the library (undefined); modelled as a no-op. -/
def cb_kb_modifiers (st : Ctx) (d l lk g : Nat) : Ctx × List Effect :=
  match st.xkb_state with
  | none => (st, [])
  | some s => ({ st with xkb_state := some (xkb_state_update_mask s d l lk g) }, [])

/-- The protocol events a dispatch can deliver to the `context` callbacks. -/
inductive Event where
  | registry_global (g : GlobalAdd)
  | xdg_base_ping (serial : Nat)
  | seat_capabilities (caps : Nat)
  | seat_name (n : String)
  | xdg_surface_configure (serial : Nat)
  | toplevel_configure (w h : Int)
  | toplevel_close
  | kb_map (blob : String)
  | kb_enter (keys : List Nat)
  | kb_leave
  | kb_key (key kstate : Nat)
  | kb_modifiers (d l lk g : Nat)
  | kb_repeat_info (rate delay : Int)
deriving DecidableEq

/-- Deliver one event to the callback registered for it. -/
def step (xkb : Xkb) (st : Ctx) (e : Event) : Ctx × List Effect :=
  match e with
  | .registry_global g => (cb_registry_global_add st g, [])
  | .xdg_base_ping serial => cb_xdg_base_ping st serial
  | .seat_capabilities caps => cb_seat_capabilities st caps
  | .seat_name _ => (st, [])
  | .xdg_surface_configure serial => cb_xdg_surface_configure st serial
  | .toplevel_configure w h => cb_xdg_toplevel_configure st w h
  | .toplevel_close => cb_xdg_toplevel_close st
  | .kb_map blob => cb_kb_map st blob
  | .kb_enter keys => cb_kb_enter xkb st keys
  | .kb_leave => (st, [])
  | .kb_key k s => cb_kb_key xkb st k s
  | .kb_modifiers d l lk g => cb_kb_modifiers st d l lk g
  | .kb_repeat_info _ _ => (st, [])

/-- `wl_display_dispatch_pending`: deliver every queued event in order. -/
def dispatchEvents (xkb : Xkb) (st : Ctx) (q : List Event) : Ctx :=
  q.foldl (fun s e => (step xkb s e).1) st

/-- The two external calls one loop iteration makes:
`wl_display_dispatch_pending` and `eglSwapBuffers`. -/
inductive LoopCall where
  | dispatchCall
  | swapCall
deriving DecidableEq

/-- `context::update` (`main.cc` lines 389-392): one dispatch call over the
pending queue, then one buffer swap.  Each call is recorded together with the
value of the close-requested flag at the moment the call is made. -/
def update (xkb : Xkb) (st : Ctx) (q : List Event) :
    Ctx × List (LoopCall × Bool) :=
  let st' := dispatchEvents xkb st q
  (st', [(LoopCall.dispatchCall, st.wants_close),
         (LoopCall.swapCall, st'.wants_close)])

/-- The `main` event loop (`main.cc` lines 394-402): while the close flag is
unset, run `update` on the next pending queue.  `fuel` bounds the number of
iterations so the recursion is structural; `qs` is the stream of per-iteration
pending event queues supplied by the compositor. -/
def runLoop (xkb : Xkb) : Nat → Ctx → List (List Event) → List (LoopCall × Bool)
  | 0, _, _ => []
  | fuel + 1, st, qs =>
    if st.wants_close then []
    else
      let r := update xkb st (qs.headD [])
      r.2 ++ runLoop xkb fuel r.1 qs.tail

/-- The environment of one construction run: whether each external acquisition
succeeds, and the globals advertised during the initial dispatch/roundtrip. -/
structure Env where
  display_ok : Bool := true
  registry_ok : Bool := true
  globals : List GlobalAdd := []
  surface_ok : Bool := true
  xdg_surface_ok : Bool := true
  toplevel_ok : Bool := true
  region_ok : Bool := true
  egl_window_ok : Bool := true
  xkb_context_ok : Bool := true
  egl_display_ok : Bool := true
  egl_init_ok : Bool := true
  egl_choose_ok : Bool := true
  egl_surface_ok : Bool := true
  egl_context_ok : Bool := true
  egl_make_current_ok : Bool := true
deriving DecidableEq

/-- An environment in which every external acquisition succeeds and the given
globals are advertised. -/
def Env.allOk (gs : List GlobalAdd) : Env := { globals := gs }

/-- All post-registry acquisitions succeed. -/
def allocsOk (env : Env) : Prop :=
  env.surface_ok = true ∧ env.xdg_surface_ok = true ∧ env.toplevel_ok = true ∧
  env.region_ok = true ∧ env.egl_window_ok = true ∧ env.xkb_context_ok = true ∧
  env.egl_display_ok = true ∧ env.egl_init_ok = true ∧
  env.egl_choose_ok = true ∧ env.egl_surface_ok = true ∧
  env.egl_context_ok = true ∧ env.egl_make_current_ok = true

/-- Outcome of running `context::context`: the thrown error or the constructed
state, the resources acquired in acquisition order, and the resources released
before the constructor returns or its exception propagates. -/
structure ConstructResult where
  result : Except CErr Ctx
  acquired : List Resource
  releasedBeforeReturn : List Resource

/-- The constructor body after the two required-capability checks (`main.cc`
lines 136-218).  C++ semantics: an exception thrown from the constructor does
not run the destructor, and no cleanup code exists on any throw path, so
`releasedBeforeReturn` is `[]` in every branch. -/
def constructAfterCheck (env : Env) (st : Ctx) (acq : List Resource) :
    ConstructResult :=
  let acq1 := acq ++ [Resource.surface]
  let acq2 := acq1 ++ [Resource.xdg_surface]
  let acq3 := acq2 ++ [Resource.toplevel]
    ++ (if st.xdg_dm.isSome then [Resource.decor] else [])
  let acq4 := acq3 ++ [Resource.region]
  let acq5 := acq4 ++ [Resource.egl_window]
  let acq6 := acq5 ++ [Resource.xkb_context]
  let acq7 := acq6 ++ [Resource.egl_init]
  let acq8 := acq7 ++ (if env.egl_surface_ok then [Resource.egl_surface] else [])
  let acq9 := acq8 ++ [Resource.egl_context]
  if env.surface_ok = false then
    ⟨.error (.surfaceError "wl_compositor_create_surface"), acq, []⟩
  else if env.xdg_surface_ok = false then
    ⟨.error (.surfaceError "xdg_wm_base_get_xdg_surface"), acq1, []⟩
  else if env.toplevel_ok = false then
    ⟨.error (.surfaceError "xdg_surface_get_toplevel"), acq2, []⟩
  else if env.region_ok = false then
    ⟨.error (.surfaceError "wl_compositor_create_region"), acq3, []⟩
  else if env.egl_window_ok = false then
    ⟨.error (.graphicsInitError "wl_egl_window_create"), acq4, []⟩
  else if env.xkb_context_ok = false then
    ⟨.error (.graphicsInitError "xkb_context_new"), acq5, []⟩
  else if env.egl_display_ok = false then
    ⟨.error (.graphicsInitError "eglGetDisplay"), acq6, []⟩
  else if env.egl_init_ok = false then
    ⟨.error (.graphicsInitError "eglInit"), acq6, []⟩
  else if env.egl_choose_ok = false then
    ⟨.error (.graphicsInitError "eglChooseConfig"), acq7, []⟩
  else if env.egl_context_ok = false then
    ⟨.error (.graphicsInitError "eglCreateContext"), acq8, []⟩
  else if env.egl_make_current_ok = false then
    ⟨.error (.graphicsInitError "eglMakeCurrent"), acq9, []⟩
  else
    ⟨.ok { st with
        wl_surface := some (), xdg_surface := some (), xdg_toplevel := some (),
        xdg_toplevel_decor :=
          if st.xdg_dm.isSome then some () else st.xdg_toplevel_decor,
        width := k_width, height := k_height,
        region := some (), egl_window := some (), xkb_context := some (),
        egl_display := some (), egl_inited := true,
        egl_surface := if env.egl_surface_ok then some () else none,
        egl_context := some () },
      acq9, []⟩

/-- The context state at the start of the registry roundtrip: display
connected, registry obtained, everything else still member-initialized. -/
def regStart : Ctx :=
  { initialCtx with wl_display := some (), registry := some () }

/-- `context::context` (`main.cc` lines 112-218): connect, get the registry,
dispatch and roundtrip the advertisements, check the two required
capabilities, then run the rest of the constructor body. -/
def construct (env : Env) : ConstructResult :=
  if env.display_ok = false then
    ⟨.error (.connectionError "wl_display_connect"), [], []⟩
  else if env.registry_ok = false then
    ⟨.error (.protocolError "wl_display_get_registry"), [Resource.display], []⟩
  else
    let pr := registryPhase env.globals regStart
    let acq := [Resource.display, Resource.registry] ++ pr.2
    if pr.1.compositor = none then
      ⟨.error (.missingCapabilityError "wl_registry_bind(wl_compositor)"),
       acq, []⟩
    else if pr.1.xdg_base = none then
      ⟨.error (.missingCapabilityError "wl_registry_bind(xdg_wm_base)"),
       acq, []⟩
    else constructAfterCheck env pr.1 acq

/-- `context::~context` (`main.cc` lines 220-240): the fixed sequence of
release calls the destructor issues, in source order. -/
def destructorOrder : List Resource :=
  [Resource.egl_context, Resource.egl_surface, Resource.egl_init,
   Resource.xkb_keymap, Resource.xkb_state, Resource.xkb_context,
   Resource.egl_window, Resource.region, Resource.keyboard, Resource.decor,
   Resource.toplevel, Resource.xdg_surface, Resource.xdg_dm, Resource.seat,
   Resource.xdg_base, Resource.surface, Resource.compositor,
   Resource.registry, Resource.display]

/-- Whether a construction outcome is the `MissingCapabilityError` failure. -/
def isMissingCap : Except CErr Ctx → Bool
  | .error (.missingCapabilityError _) => true
  | _ => false

/-- Whether a construction outcome is a success. -/
def isOkE : Except CErr Ctx → Bool
  | .ok _ => true
  | .error _ => false

/-- Construction success for a given advertisement list, all external
acquisitions succeeding. -/
def constructOk (gs : List GlobalAdd) : Bool :=
  isOkE (construct (Env.allOk gs)).result

/-- Which of the four recognized capabilities end up bound after the registry
phase (compositor, wm base, seat, decoration manager). -/
def boundKinds (gs : List GlobalAdd) : Bool × Bool × Bool × Bool :=
  let st := (registryPhase gs regStart).1
  (st.compositor.isSome, st.xdg_base.isSome, st.seat.isSome, st.xdg_dm.isSome)

/-- The bound seat handle of a construction outcome (the advertisement id the
last matching `wl_registry_bind` call used), if construction succeeded. -/
def seatOf : Except CErr Ctx → Option Nat
  | .ok st => st.seat
  | .error _ => none

/-- The toplevel-close event recognizer. -/
def isCloseEvent : Event → Bool
  | .toplevel_close => true
  | _ => false

/-- A concrete keymap-resolution semantics: the identity on keycodes (used to
instantiate theorems at concrete inputs). -/
def xkb0 : Xkb := ⟨fun _ code _ _ _ _ => code⟩

/-- A concrete context holding a compiled keymap and its derived state. -/
def ctxKb : Ctx := { xkb_state := some (xkb_state_new ⟨"km"⟩) }

/-- A well-formed advertisement list: compositor and wm base only. -/
def gsW : List GlobalAdd :=
  [⟨1, wl_compositor_name, 1⟩, ⟨2, xdg_wm_base_name, 1⟩]

/-- Two seats (ids 1, 2), then compositor and wm base. -/
def gsA : List GlobalAdd :=
  [⟨1, wl_seat_name, 7⟩, ⟨2, wl_seat_name, 7⟩,
   ⟨3, wl_compositor_name, 1⟩, ⟨4, xdg_wm_base_name, 1⟩]

/-- The same advertisements as `gsA` with the two seats swapped. -/
def gsB : List GlobalAdd :=
  [⟨2, wl_seat_name, 7⟩, ⟨1, wl_seat_name, 7⟩,
   ⟨3, wl_compositor_name, 1⟩, ⟨4, xdg_wm_base_name, 1⟩]

/-! ## Helper lemmas -/

/-- `registryPhase` touches only the four capability members. -/
theorem registryPhase_preserves (gs : List GlobalAdd) :
    ∀ st : Ctx,
    (registryPhase gs st).1.wl_display = st.wl_display ∧
    (registryPhase gs st).1.registry = st.registry ∧
    (registryPhase gs st).1.wl_surface = st.wl_surface ∧
    (registryPhase gs st).1.xdg_surface = st.xdg_surface ∧
    (registryPhase gs st).1.xdg_toplevel = st.xdg_toplevel ∧
    (registryPhase gs st).1.xdg_toplevel_decor = st.xdg_toplevel_decor ∧
    (registryPhase gs st).1.wl_keyboard = st.wl_keyboard ∧
    (registryPhase gs st).1.wants_close = st.wants_close ∧
    (registryPhase gs st).1.width = st.width ∧
    (registryPhase gs st).1.height = st.height ∧
    (registryPhase gs st).1.region = st.region ∧
    (registryPhase gs st).1.egl_window = st.egl_window ∧
    (registryPhase gs st).1.egl_display = st.egl_display ∧
    (registryPhase gs st).1.egl_inited = st.egl_inited ∧
    (registryPhase gs st).1.egl_surface = st.egl_surface ∧
    (registryPhase gs st).1.egl_context = st.egl_context ∧
    (registryPhase gs st).1.xkb_state = st.xkb_state ∧
    (registryPhase gs st).1.xkb_context = st.xkb_context ∧
    (registryPhase gs st).1.xkb_keymap = st.xkb_keymap := by
  induction gs with
  | nil => intro st; simp [registryPhase]
  | cons g rest ih =>
    intro st
    simp only [registryPhase]
    have h := ih (cb_registry_global_add st g)
    unfold cb_registry_global_add at h ⊢
    split_ifs at h ⊢ <;> simp_all

/-- After `registryPhase`, a capability member is bound exactly when it was
already bound or its interface name was advertised. -/
theorem registryPhase_bound (gs : List GlobalAdd) :
    ∀ st : Ctx,
    (registryPhase gs st).1.compositor.isSome
      = (st.compositor.isSome || hasGlobal gs wl_compositor_name) ∧
    (registryPhase gs st).1.xdg_base.isSome
      = (st.xdg_base.isSome || hasGlobal gs xdg_wm_base_name) ∧
    (registryPhase gs st).1.seat.isSome
      = (st.seat.isSome || hasGlobal gs wl_seat_name) ∧
    (registryPhase gs st).1.xdg_dm.isSome
      = (st.xdg_dm.isSome || hasGlobal gs zxdg_decoration_manager_v1_name) := by
  induction gs with
  | nil => intro st; simp [registryPhase, hasGlobal]
  | cons g rest ih =>
    intro st
    simp only [registryPhase, hasGlobal, List.any_cons] at ih ⊢
    obtain ⟨i1, i2, i3, i4⟩ := ih (cb_registry_global_add st g)
    rw [i1, i2, i3, i4]
    unfold cb_registry_global_add
    split_ifs with h1 h2 h3 h4 <;>
      simp_all [wl_compositor_name, xdg_wm_base_name, wl_seat_name,
        zxdg_decoration_manager_v1_name]

/-- No branch of the post-check constructor body releases anything before it
returns or throws. -/
theorem constructAfterCheck_released (env : Env) (st : Ctx)
    (acq : List Resource) :
    (constructAfterCheck env st acq).releasedBeforeReturn = [] := by
  simp only [constructAfterCheck,
    apply_ite ConstructResult.releasedBeforeReturn, ite_self]

/-- The post-check constructor body never throws the missing-capability
error. -/
theorem constructAfterCheck_notMissing (env : Env) (st : Ctx)
    (acq : List Resource) :
    isMissingCap (constructAfterCheck env st acq).result = false := by
  simp only [constructAfterCheck, apply_ite ConstructResult.result,
    apply_ite isMissingCap]
  simp [isMissingCap, ite_self]

/-- When every post-check acquisition succeeds, the constructor body completes
with exactly the surface/window/EGL members added to the state it was given. -/
theorem constructAfterCheck_ok_eq (env : Env) (st : Ctx) (acq : List Resource)
    (h : allocsOk env) :
    (constructAfterCheck env st acq).result = .ok { st with
      wl_surface := some (), xdg_surface := some (), xdg_toplevel := some (),
      xdg_toplevel_decor :=
        if st.xdg_dm.isSome then some () else st.xdg_toplevel_decor,
      width := k_width, height := k_height,
      region := some (), egl_window := some (), xkb_context := some (),
      egl_display := some (), egl_inited := true,
      egl_surface := if env.egl_surface_ok then some () else none,
      egl_context := some () } := by
  obtain ⟨h1, h2, h3, h4, h5, h6, h7, h8, h9, h10, h11, h12⟩ := h
  simp [constructAfterCheck, h1, h2, h3, h4, h5, h6, h7, h8, h9, h10, h11, h12]

/-- No branch of the constructor releases anything before it returns or its
exception propagates. -/
theorem construct_released (env : Env) :
    (construct env).releasedBeforeReturn = [] := by
  simp only [construct, apply_ite ConstructResult.releasedBeforeReturn,
    constructAfterCheck_released, ite_self]

/-- The destructor's release sequence covers every resource. -/
theorem mem_destructorOrder (r : Resource) : r ∈ destructorOrder := by
  cases r <;> decide

/-- The close flag after any single event: unchanged unless the event is
toplevel-close, which sets it. -/
theorem step_wants_close (xkb : Xkb) (st : Ctx) (e : Event) :
    (step xkb st e).1.wants_close = (st.wants_close || isCloseEvent e) := by
  cases e <;>
    simp only [step, isCloseEvent, cb_xdg_base_ping, cb_seat_capabilities,
      cb_xdg_surface_configure, cb_xdg_toplevel_configure, resize,
      cb_xdg_toplevel_close, cb_kb_map, cb_kb_enter, cb_kb_key,
      cb_kb_modifiers, cb_registry_global_add, Bool.or_false, Bool.or_true] <;>
    first
      | rfl
      | (split_ifs <;> rfl)
      | (cases st.xkb_state <;> rfl)

/-- Dispatch preserves a set close flag. -/
theorem dispatchEvents_mono (xkb : Xkb) (q : List Event) :
    ∀ st : Ctx, st.wants_close = true →
      (dispatchEvents xkb st q).wants_close = true := by
  induction q with
  | nil => intro st h; simpa [dispatchEvents] using h
  | cons e rest ih =>
    intro st h
    simp only [dispatchEvents, List.foldl_cons] at ih ⊢
    exact ih _ (by rw [step_wants_close, h, Bool.true_or])

/-- Dispatching a queue containing the close event leaves the flag set. -/
theorem dispatchEvents_close (xkb : Xkb) (q : List Event) :
    ∀ st : Ctx, Event.toplevel_close ∈ q →
      (dispatchEvents xkb st q).wants_close = true := by
  induction q with
  | nil => intro st h; cases h
  | cons e rest ih =>
    intro st h
    rcases List.mem_cons.mp h with h1 | h2
    · simp only [dispatchEvents, List.foldl_cons]
      have : (step xkb st e).1.wants_close = true := by
        rw [step_wants_close, ← h1]
        simp [isCloseEvent]
      exact dispatchEvents_mono xkb rest _ this
    · simp only [dispatchEvents, List.foldl_cons]
      exact ih _ h2

/-- A loop started with the close flag set performs no call at all. -/
theorem runLoop_closed (xkb : Xkb) (fuel : Nat) (st : Ctx)
    (qs : List (List Event)) (h : st.wants_close = true) :
    runLoop xkb fuel st qs = [] := by
  cases fuel <;> simp [runLoop, h]

/-- Advertisement membership by interface name is invariant under
permutation of the advertisement sequence. -/
theorem hasGlobal_perm {l l' : List GlobalAdd} (h : l.Perm l') (n : String) :
    hasGlobal l n = hasGlobal l' n := by
  rw [Bool.eq_iff_iff]
  simp only [hasGlobal, List.any_eq_true]
  constructor
  · rintro ⟨g, hg, he⟩
    exact ⟨g, h.mem_iff.mp hg, he⟩
  · rintro ⟨g, hg, he⟩
    exact ⟨g, h.mem_iff.mpr hg, he⟩

/-- Which capability kinds are bound after the registry phase is exactly
which recognized interface names were advertised. -/
theorem boundKinds_eq (gs : List GlobalAdd) :
    boundKinds gs
      = (hasGlobal gs wl_compositor_name, hasGlobal gs xdg_wm_base_name,
         hasGlobal gs wl_seat_name,
         hasGlobal gs zxdg_decoration_manager_v1_name) := by
  obtain ⟨b1, b2, b3, b4⟩ := registryPhase_bound gs regStart
  rw [show regStart.compositor.isSome = false from rfl, Bool.false_or] at b1
  rw [show regStart.xdg_base.isSome = false from rfl, Bool.false_or] at b2
  rw [show regStart.seat.isSome = false from rfl, Bool.false_or] at b3
  rw [show regStart.xdg_dm.isSome = false from rfl, Bool.false_or] at b4
  simp only [boundKinds]
  rw [b1, b2, b3, b4]

/-- With every external acquisition succeeding, construction succeeds exactly
when both required interface names were advertised. -/
theorem constructOk_eq (gs : List GlobalAdd) :
    constructOk gs
      = (hasGlobal gs wl_compositor_name && hasGlobal gs xdg_wm_base_name) := by
  obtain ⟨b1, b2, -, -⟩ := registryPhase_bound gs regStart
  have hbs : regStart.compositor.isSome = false := rfl
  have hbb : regStart.xdg_base.isSome = false := rfl
  rw [hbs, Bool.false_or] at b1
  rw [hbb, Bool.false_or] at b2
  simp only [constructOk, construct, Env.allOk]
  have hok : allocsOk (Env.allOk gs) := by
    simp [allocsOk, Env.allOk]
  cases hc : (registryPhase gs regStart).1.compositor with
  | none =>
    rw [hc] at b1
    simp [Env.allOk, ← b1, isOkE]
  | some ck =>
    rw [hc] at b1
    cases hb : (registryPhase gs regStart).1.xdg_base with
    | none =>
      rw [hb] at b2
      simp [Env.allOk, ← b1, ← b2, isOkE]
    | some bk =>
      rw [hb] at b2
      have := constructAfterCheck_ok_eq (Env.allOk gs)
        (registryPhase gs regStart).1
        ([Resource.display, Resource.registry] ++ (registryPhase gs regStart).2)
        hok
      simp [Env.allOk] at this
      simp [Env.allOk, ← b1, ← b2, hc, hb, this, isOkE]

/-! ## Claim theorems -/

/-- Claim C2: for every toplevel-configure event delivering a (width, height)
pair that differs from the currently stored size (the native EGL window being
present, as it is in every constructed session), the stored size is updated
exactly to that pair, the graphics bridge receives exactly one resize call
with that pair, the surface is committed, and the configure callback is
exactly this resize.  The effects carry no buffer swap: swaps are issued only
by `update`, after the dispatch that runs this callback. -/
theorem C2_resize_propagation (st : Ctx) (w h : Int)
    (hne : ¬(w = st.width ∧ h = st.height)) (hw : st.egl_window.isSome = true) :
    (resize st w h).1.width = w ∧ (resize st w h).1.height = h ∧
    (resize st w h).2 = [Effect.egl_window_resize w h, Effect.surface_commit] ∧
    (resize st w h).2.count (Effect.egl_window_resize w h) = 1 ∧
    cb_xdg_toplevel_configure st w h = resize st w h := by
  refine ⟨?_, ?_, ?_, ?_, rfl⟩ <;>
    simp [resize, hne, hw, List.count_cons]

/-- Witness for C2 at the default 800×600 state with an EGL window, proposed
size 1024×768. -/
theorem C2_resize_propagation_witness :
    (resize ({ egl_window := some () } : Ctx) 1024 768).1.width = 1024 ∧
    (resize ({ egl_window := some () } : Ctx) 1024 768).1.height = 768 ∧
    (resize ({ egl_window := some () } : Ctx) 1024 768).2
      = [Effect.egl_window_resize 1024 768, Effect.surface_commit] ∧
    (resize ({ egl_window := some () } : Ctx) 1024 768).2.count
      (Effect.egl_window_resize 1024 768) = 1 ∧
    cb_xdg_toplevel_configure ({ egl_window := some () } : Ctx) 1024 768
      = resize ({ egl_window := some () } : Ctx) 1024 768 :=
  C2_resize_propagation { egl_window := some () } 1024 768 (by decide) rfl

/-- Claim C3 counterexample: a toplevel-configure with zero dimensions is NOT
treated as "no resize requested".  From the default 800×600 state, `resize 0 0`
stores width 0 and issues a native resize and a surface commit, where the
claim requires the state and surface to be left untouched. -/
theorem C3_zero_counterexample :
    (resize ({ egl_window := some () } : Ctx) 0 0).1.width = 0 ∧
    (resize ({ egl_window := some () } : Ctx) 0 0).1.height = 0 ∧
    (resize ({ egl_window := some () } : Ctx) 0 0).2
      = [Effect.egl_window_resize 0 0, Effect.surface_commit] := by
  refine ⟨rfl, rfl, by decide⟩

/-- Claim C3 as amended: only a proposed size equal to the currently stored
size is treated as "no resize requested" (state unchanged, no propagation, no
commit); zero dimensions different from the stored size are processed like
any other resize. -/
theorem C3_noop_resize (st : Ctx) (w h : Int)
    (hw : w = st.width) (hh : h = st.height) :
    resize st w h = (st, []) ∧ cb_xdg_toplevel_configure st w h = (st, []) := by
  constructor <;> simp [resize, cb_xdg_toplevel_configure, hw, hh]

/-- Witness for the amended C3 at the default 800×600 state. -/
theorem C3_noop_resize_witness :
    resize initialCtx 800 600 = (initialCtx, []) ∧
    cb_xdg_toplevel_configure initialCtx 800 600 = (initialCtx, []) :=
  C3_noop_resize initialCtx 800 600 rfl rfl

/-- Claim C6: both the direct key-event path and the enter-event batch path
translate a scancode `k` by adding the fixed offset 8 before resolving it
through the compiled keymap and current derived state, so under any fixed
keymap semantics both paths emit the same symbol for `k`. -/
theorem C6_scancode_offset (xkb : Xkb) (st : Ctx) (s : XkbState) (k : Nat)
    (hs : st.xkb_state = some s) :
    (cb_kb_key xkb st k WL_KEYBOARD_KEY_STATE_PRESSED).2
      = [Effect.key_observation "pressed  "
          (xkb_state_key_get_one_sym xkb s (k + 8))] ∧
    (cb_kb_enter xkb st [k]).2
      = [Effect.key_observation "pressed  "
          (xkb_state_key_get_one_sym xkb s (k + 8))] ∧
    (cb_kb_key xkb st k WL_KEYBOARD_KEY_STATE_PRESSED).2
      = (cb_kb_enter xkb st [k]).2 := by
  refine ⟨?_, ?_, ?_⟩ <;>
    simp [cb_kb_key, cb_kb_enter, hs, WL_KEYBOARD_KEY_STATE_PRESSED]

/-- Witness for C6: under the identity keymap semantics, scancode 30 resolves
to symbol 38 = 30 + 8 through both paths. -/
theorem C6_scancode_offset_witness :
    (cb_kb_key xkb0 ctxKb 30 WL_KEYBOARD_KEY_STATE_PRESSED).2
      = [Effect.key_observation "pressed  " 38] ∧
    (cb_kb_enter xkb0 ctxKb [30]).2
      = [Effect.key_observation "pressed  " 38] ∧
    (cb_kb_key xkb0 ctxKb 30 WL_KEYBOARD_KEY_STATE_PRESSED).2
      = (cb_kb_enter xkb0 ctxKb [30]).2 :=
  C6_scancode_offset xkb0 ctxKb (xkb_state_new ⟨"km"⟩) 30 rfl

/-- Claim C8: the close-requested flag starts false, the toplevel-close
callback sets it to true (and only writes it: its result is exactly the state
with the flag set), and no event ever resets it: after any event the flag is
the old flag OR-ed with whether the event was toplevel-close. -/
theorem C8_close_flag_monotonic (xkb : Xkb) (st : Ctx) (e : Event) :
    initialCtx.wants_close = false ∧
    (step xkb st e).1.wants_close = (st.wants_close || isCloseEvent e) ∧
    cb_xdg_toplevel_close st = ({ st with wants_close := true }, []) :=
  ⟨rfl, step_wants_close xkb st e, rfl⟩

/-- Claim C9: on a keymap event the stored keymap becomes the one compiled
from the delivered blob, the stored derived state is freshly constructed from
that same keymap (so both always belong to the same compilation generation),
and the previous keymap and state objects are unreferenced (the
`keymap_unref`/`state_unref` calls on the old values appear in the effect
trace, after the new state is created, so nothing is leaked). -/
theorem C9_keymap_generation (st : Ctx) (blob : String) :
    cb_kb_map st blob = ({ st with
        xkb_keymap := some (xkb_keymap_new_from_string blob),
        xkb_state := some (xkb_state_new (xkb_keymap_new_from_string blob)) },
      [Effect.mmap, Effect.compile_keymap blob, Effect.munmap, Effect.close_fd,
       Effect.state_new, Effect.keymap_unref st.xkb_keymap,
       Effect.state_unref st.xkb_state]) ∧
    (cb_kb_map st blob).1.xkb_state.map XkbState.keymap
      = (cb_kb_map st blob).1.xkb_keymap := by
  constructor
  · rfl
  · simp [cb_kb_map, xkb_state_new, xkb_keymap_new_from_string]

/-- Claim C10: a seat capability event acquires the keyboard (and registers
its listeners) exactly when the keyboard bit is set and no handle is held,
releases it exactly when the bit is clear and a handle is held, and leaves the
handle untouched when the bit matches the current state; the `context` and
`Window` versions of the handler behave identically. -/
theorem C10_keyboard_acquire_release (st : Ctx) (caps : Nat) :
    (caps &&& WL_SEAT_CAPABILITY_KEYBOARD ≠ 0 → st.wl_keyboard = none →
      cb_seat_capabilities st caps
        = ({ st with wl_keyboard := some () },
           [Effect.seat_get_keyboard, Effect.keyboard_add_listener])) ∧
    (caps &&& WL_SEAT_CAPABILITY_KEYBOARD = 0 → st.wl_keyboard ≠ none →
      cb_seat_capabilities st caps
        = ({ st with wl_keyboard := none }, [Effect.keyboard_release])) ∧
    (caps &&& WL_SEAT_CAPABILITY_KEYBOARD ≠ 0 → st.wl_keyboard ≠ none →
      cb_seat_capabilities st caps = (st, [])) ∧
    (caps &&& WL_SEAT_CAPABILITY_KEYBOARD = 0 → st.wl_keyboard = none →
      cb_seat_capabilities st caps = (st, [])) ∧
    on_seat_capabilities st.wl_keyboard caps
      = ((cb_seat_capabilities st caps).1.wl_keyboard,
         (cb_seat_capabilities st caps).2) := by
  by_cases hk : caps &&& WL_SEAT_CAPABILITY_KEYBOARD = 0 <;>
    cases hkb : st.wl_keyboard <;>
    simp [cb_seat_capabilities, on_seat_capabilities, hk, hkb]

/-- Witness for C10: from a state with no keyboard handle, a capability mask
with the keyboard bit set (3 = pointer | keyboard) acquires the handle and
registers listeners. -/
theorem C10_keyboard_acquire_release_witness :
    cb_seat_capabilities initialCtx 3
      = ({ initialCtx with wl_keyboard := some () },
         [Effect.seat_get_keyboard, Effect.keyboard_add_listener]) :=
  (C10_keyboard_acquire_release initialCtx 3).1 (by decide) rfl

/-- Claim C1: with the display connected and the registry obtained,
construction fails with the missing-capability error exactly when
`wl_compositor` or `xdg_wm_base` was not advertised; and when both are
advertised (and the environment's allocations succeed) construction succeeds
even without the decoration manager and the seat — the decoration handle
stays absent (client-side default) and the Input Translator stays Unbound
(no keyboard handle, no keymap, no derived state). -/
theorem C1_missing_capability (env : Env)
    (hd : env.display_ok = true) (hr : env.registry_ok = true) :
    isMissingCap (construct env).result
      = !(hasGlobal env.globals wl_compositor_name
          && hasGlobal env.globals xdg_wm_base_name) ∧
    (allocsOk env →
      hasGlobal env.globals wl_compositor_name = true →
      hasGlobal env.globals xdg_wm_base_name = true →
      ∃ st, (construct env).result = .ok st ∧
        (hasGlobal env.globals zxdg_decoration_manager_v1_name = false →
          st.xdg_toplevel_decor = none) ∧
        (hasGlobal env.globals wl_seat_name = false →
          st.wl_keyboard = none ∧ st.xkb_state = none ∧
          st.xkb_keymap = none)) := by
  obtain ⟨b1, b2, -, b4⟩ := registryPhase_bound env.globals regStart
  rw [show regStart.compositor.isSome = false from rfl, Bool.false_or] at b1
  rw [show regStart.xdg_base.isSome = false from rfl, Bool.false_or] at b2
  rw [show regStart.xdg_dm.isSome = false from rfl, Bool.false_or] at b4
  obtain ⟨p1, p2, p3, p4, p5, p6, p7, p8, p9, p10, p11, p12, p13, p14, p15,
    p16, p17, p18, p19⟩ := registryPhase_preserves env.globals regStart
  constructor
  · simp only [construct, hd, hr]
    cases hc : (registryPhase env.globals regStart).1.compositor with
    | none =>
      rw [hc] at b1
      simp [← b1, isMissingCap]
    | some ck =>
      rw [hc] at b1
      cases hb : (registryPhase env.globals regStart).1.xdg_base with
      | none =>
        rw [hb] at b2
        simp [← b1, ← b2, isMissingCap]
      | some bk =>
        rw [hb] at b2
        simp [← b1, ← b2, hc, hb, constructAfterCheck_notMissing]
  · intro hok hgc hgb
    rw [hgc] at b1
    rw [hgb] at b2
    obtain ⟨ck, hc⟩ := Option.isSome_iff_exists.mp b1
    obtain ⟨bk, hb⟩ := Option.isSome_iff_exists.mp b2
    have heq := constructAfterCheck_ok_eq env
      (registryPhase env.globals regStart).1
      ([Resource.display, Resource.registry]
        ++ (registryPhase env.globals regStart).2) hok
    have hstep : (construct env).result
        = (constructAfterCheck env (registryPhase env.globals regStart).1
            ([Resource.display, Resource.registry]
              ++ (registryPhase env.globals regStart).2)).result := by
      simp [construct, hd, hr, hc, hb]
    rw [heq] at hstep
    refine ⟨_, hstep, ?_, ?_⟩
    · intro hgd
      rw [hgd] at b4
      simp [b4, p6, show regStart.xdg_toplevel_decor = none from rfl]
    · intro _
      refine ⟨?_, ?_, ?_⟩ <;>
        simp [p7, p17, p19,
          show regStart.wl_keyboard = none from rfl,
          show regStart.xkb_state = none from rfl,
          show regStart.xkb_keymap = none from rfl]

/-- Witness for C1: advertising exactly compositor and wm base (no decoration
manager, no seat) in an all-successful environment: not a missing-capability
failure, construction succeeds, decoration handle absent, keyboard/keymap/
state all absent. -/
theorem C1_missing_capability_witness :
    isMissingCap (construct (Env.allOk gsW)).result = false ∧
    ∃ st, (construct (Env.allOk gsW)).result = .ok st ∧
      st.xdg_toplevel_decor = none ∧
      st.wl_keyboard = none ∧ st.xkb_state = none ∧ st.xkb_keymap = none := by
  have h := C1_missing_capability (Env.allOk gsW) rfl rfl
  have h2 := h.2 (by simp [allocsOk, Env.allOk]) (by decide) (by decide)
  obtain ⟨st, hst, hdec, hkb⟩ := h2
  refine ⟨by rw [h.1]; decide, st, hst, hdec (by decide), hkb (by decide)⟩

/-- Claim C4 counterexample: the loop's iteration does one dispatch call and
then one buffer swap.  Starting from the initial state (flag false) with a
pending toplevel-close event, the run's trace (each call paired with the
close flag at the moment the call is made) is: a dispatch with the flag still
false, then a swap with the flag already true.  So a buffer swap does occur
after the flag becomes true, contrary to the claim; the loop then stops. -/
theorem C4_swap_after_close_counterexample :
    initialCtx.wants_close = false ∧
    runLoop xkb0 2 initialCtx [[Event.toplevel_close]]
      = [(LoopCall.dispatchCall, false), (LoopCall.swapCall, true)] := by
  refine ⟨rfl, by decide⟩

/-- Claim C4 as amended: once a dispatched queue contains toplevel-close, the
iteration that dispatched it completes (including its single trailing buffer
swap) and the loop terminates at the very next iteration check: the whole
remaining run is exactly that one iteration's dispatch call and swap call,
with no dispatch or swap in any later iteration. -/
theorem C4_loop_terminates (xkb : Xkb) (fuel : Nat) (st : Ctx)
    (q : List Event) (qs : List (List Event))
    (hflag : st.wants_close = false) (hclose : Event.toplevel_close ∈ q) :
    runLoop xkb (fuel + 1) st (q :: qs) = (update xkb st q).2 := by
  have hdone : (update xkb st q).1.wants_close = true :=
    dispatchEvents_close xkb q st hclose
  simp only [runLoop, hflag, Bool.false_eq_true, if_false, List.headD_cons,
    List.tail_cons]
  rw [runLoop_closed xkb fuel _ qs hdone, List.append_nil]

/-- Witness for the amended C4: a concrete run with ample fuel and further
queued events reduces to the one closing iteration's dispatch and swap. -/
theorem C4_loop_terminates_witness :
    runLoop xkb0 3 initialCtx [[Event.toplevel_close], [Event.kb_leave]]
      = (update xkb0 initialCtx [Event.toplevel_close]).2 :=
  C4_loop_terminates xkb0 2 initialCtx [Event.toplevel_close]
    [[Event.kb_leave]] rfl (by decide)

/-- Claim C5 counterexample: advertising only `wl_compositor` makes
construction fail with the missing-capability error for `xdg_wm_base` after
the display connection, the registry and the compositor binding were
acquired — and the failure propagates with nothing released (a throwing C++
constructor does not run the destructor, and no cleanup code exists on the
throw paths), where the claim requires all three to be released first. -/
theorem C5_leak_counterexample :
    (construct (Env.allOk [⟨1, wl_compositor_name, 1⟩])).result
      = .error (.missingCapabilityError "wl_registry_bind(xdg_wm_base)") ∧
    (construct (Env.allOk [⟨1, wl_compositor_name, 1⟩])).acquired
      = [Resource.display, Resource.registry, Resource.compositor] ∧
    (construct (Env.allOk [⟨1, wl_compositor_name, 1⟩])).releasedBeforeReturn
      = [] := by
  refine ⟨rfl, by decide, by decide⟩

/-- Claim C5 as amended: a construction-time failure propagates without any
release — every resource acquired before the failure point remains allocated
when the error escapes; resources are released only by the destructor of a
fully constructed session, whose fixed release sequence covers every resource
a session can acquire. -/
theorem C5_no_release_on_failure (env : Env) :
    (construct env).releasedBeforeReturn = [] ∧
    (∀ r, r ∈ (construct env).acquired → r ∈ destructorOrder) :=
  ⟨construct_released env, fun r _ => mem_destructorOrder r⟩

/-- Witness for the amended C5 at the counterexample environment: nothing is
released before the error propagates, and the display connection (acquired
there) is covered by the destructor's release sequence. -/
theorem C5_no_release_on_failure_witness :
    (construct (Env.allOk [⟨7, wl_compositor_name, 1⟩])).releasedBeforeReturn
      = [] ∧
    Resource.display ∈ destructorOrder :=
  ⟨(C5_no_release_on_failure (Env.allOk [⟨7, wl_compositor_name, 1⟩])).1,
   (C5_no_release_on_failure (Env.allOk [⟨7, wl_compositor_name, 1⟩])).2
     Resource.display (by decide)⟩

/-- Claim C7 counterexample: with two seats advertised (ids 1 and 2) along
with the required capabilities, swapping the two seat advertisements is a
permutation under which construction still succeeds both ways, but the bound
seat handle differs (the binder stores the last matching advertisement), so
the set of bound capability handles is NOT the same for every arrival
order. -/
theorem C7_order_counterexample :
    gsA.Perm gsB ∧
    constructOk gsA = true ∧ constructOk gsB = true ∧
    seatOf (construct (Env.allOk gsA)).result = some 2 ∧
    seatOf (construct (Env.allOk gsB)).result = some 1 := by
  refine ⟨List.Perm.swap _ _ _, by decide, by decide, by decide, by decide⟩

/-- Claim C7 as amended: for any two advertisement sequences that are
permutations of each other, construction succeeds for one exactly when it
succeeds for the other (namely when compositor and wm base are advertised),
and the same set of capability KINDS ends up bound — matching is by interface
name alone; only the specific handle bound for an interface advertised more
than once depends on arrival order (last advertisement wins). -/
theorem C7_order_independent (l l' : List GlobalAdd) (h : l.Perm l') :
    constructOk l = constructOk l' ∧ boundKinds l = boundKinds l' := by
  constructor
  · rw [constructOk_eq, constructOk_eq, hasGlobal_perm h, hasGlobal_perm h]
  · rw [boundKinds_eq, boundKinds_eq, hasGlobal_perm h, hasGlobal_perm h,
      hasGlobal_perm h, hasGlobal_perm h]

/-- Witness for the amended C7 at the two concrete advertisement orders. -/
theorem C7_order_independent_witness :
    constructOk gsA = constructOk gsB ∧ boundKinds gsA = boundKinds gsB :=
  C7_order_independent gsA gsB (List.Perm.swap _ _ _)

end Wlhello
